import Mathlib

/-!
Verification of the debug-relay bridge of borgstrom/alexa-skills-kit-golang
(src/debug-server.go), as a shallow embedding in Lean 4.

The embedding models:
- the two wire frame shapes, skillRequest and skillResponse;
- the region table regionEndpoints and the relay URL construction;
- the per-frame pipeline of the debug loop: json.Unmarshal of the inner
  payload, invocation of the caller-supplied handler, json.Marshal of its
  result, and response-frame construction;
- the read/dispatch/write loop itself, as a trace of session events driven
  by a finite script of world inputs (read results, per-frame collaborators,
  write results).

Go error values are modelled as Except String; Go nil pointers as Option.
Calls to log.Fatal are modelled as process-terminating fatal exits: per the
Go standard library, log.Fatal calls os.Exit, which terminates the process
immediately without running deferred functions, so the deferred transport
Close on line 94 of the source is never executed by any fatal exit.
-/

namespace AlexaDebug

/-- Inbound wire frame, translated from the Go struct skillRequest
(src/debug-server.go lines 46-51). -/
structure skillRequest where
  version : String
  type : String
  requestId : String
  requestPayload : String
deriving Repr, DecidableEq

/-- Outbound frame outcome tag, translated from skillResponseType and its two
constants (lines 53-58). -/
inductive skillResponseType where
  | success
  | failure
deriving Repr, DecidableEq

/-- Wire string of each outcome tag (lines 56-57). -/
def skillResponseType.wire : skillResponseType → String
  | .success => "SkillResponseSuccessMessage"
  | .failure => "SkillResponseFailureMessage"

/-- Outbound wire frame, translated from the Go struct skillResponse
(lines 60-65). -/
structure skillResponse where
  version : String
  type : skillResponseType
  originalRequestId : String
  responsePayload : String
deriving Repr, DecidableEq

/-- Region table (lines 40-44). A Go map lookup with an absent key yields the
zero value of the value type, here the empty string. -/
def regionEndpoints (code : String) : String :=
  if code = "NA" then "bob-dispatch-prod-na.amazon.com"
  else if code = "FE" then "bob-dispatch-prod-fe.amazon.com"
  else if code = "EU" then "bob-dispatch-prod-eu.amazon.com"
  else ""

/-- Debug relay URL (lines 73-77): fmt.Sprintf with two %s verbs into the
fixed format string is string concatenation. -/
def debugEndpointURL (region skillId : String) : String :=
  "wss://" ++ regionEndpoints region ++ "/v1/skills/" ++ skillId ++
    "/stages/development/connectCustomDebugEndpoint"

/-- Per-frame collaborators of the loop body, as oracles. unmarshalPayload is
json.Unmarshal of the inner payload string into a possibly-nil pointer
(line 112); handler is the caller-supplied handlerFunc taking that pointer
(line 123); marshal is json.Marshal of the handler result (line 128). A Go
error return is Except.error carrying the message. -/
structure FrameEnv (Req Resp : Type) where
  unmarshalPayload : String → Except String (Option Req)
  handler : Option Req → Except String Resp
  marshal : Resp → Except String String

/-- Response construction from a decoded inner request (lines 117-135): the
frame starts out as a Success echoing the request version and requestId with
the zero-valued (empty) payload; a handler error downgrades the outcome to
Failure (line 126), as does a marshal error (line 131); otherwise the payload
becomes the marshalled handler result (line 133). -/
def respondTo {Req Resp : Type} (env : FrameEnv Req Resp) (req : skillRequest)
    (reqEnv : Option Req) : skillResponse :=
  let resp : skillResponse :=
    { type := .success, version := req.version,
      originalRequestId := req.requestId, responsePayload := "" }
  match env.handler reqEnv with
  | .error _ => { resp with type := .failure }
  | .ok r =>
    match env.marshal r with
    | .error _ => { resp with type := .failure }
    | .ok rb => { resp with responsePayload := rb }

/-- Body of one loop iteration after a successful frame read (lines 111-135):
json.Unmarshal the inner payload — a failure here is log.Fatal on line 114,
i.e. session-fatal, modelled as the error branch — then build the response. -/
def processFrame {Req Resp : Type} (env : FrameEnv Req Resp)
    (req : skillRequest) : Except String skillResponse :=
  match env.unmarshalPayload req.requestPayload with
  | .error e => .error e
  | .ok reqEnv => .ok (respondTo env req reqEnv)

/-- Which of the three log.Fatal sites inside the loop ended the session. -/
inductive FatalKind where
  | readFailure
  | innerDecodeFailure
  | writeFailure
deriving Repr, DecidableEq

/-- Observable events of a debug session. -/
inductive SessionEvent where
  | readFrame (req : skillRequest)
  | wroteResponse (resp : skillResponse)
  | closedTransport
  | fatalExit (kind : FatalKind)
deriving Repr, DecidableEq

/-- World inputs consumed by one iteration of the loop: the outcome of
wsjson.Read (line 104), the per-frame collaborators, and the outcome of
wsjson.Write (line 138). -/
structure LoopInput (Req Resp : Type) where
  readResult : Except String skillRequest
  frameEnv : FrameEnv Req Resp
  writeResult : Except String Unit

/-- Read/dispatch/write loop of debug (lines 99-142), driven by a finite
script of world inputs. Each iteration reads a frame (a read error is
log.Fatal, line 106), runs the pipeline (an inner decode error is log.Fatal,
line 114), and writes the response (a write error is log.Fatal, line 140).
Every exit from the loop is one of these log.Fatal calls; log.Fatal calls
os.Exit, which terminates the process without running deferred functions,
so the deferred c.Close of line 94 never runs and no closedTransport event
is ever emitted. An exhausted script leaves the loop blocked in its next
read with no further events. -/
def debugLoop {Req Resp : Type} (script : List (LoopInput Req Resp)) :
    List SessionEvent :=
  match script with
  | [] => []
  | inp :: rest =>
    match inp.readResult with
    | .error _ => [.fatalExit .readFailure]
    | .ok req =>
      .readFrame req ::
        match processFrame inp.frameEnv req with
        | .error _ => [.fatalExit .innerDecodeFailure]
        | .ok resp =>
          match inp.writeResult with
          | .error _ => [.fatalExit .writeFailure]
          | .ok _ => .wroteResponse resp :: debugLoop rest

/-- Model of Go encoding/json Unmarshal into a pointer target, parameterized
by the parser for non-null documents: per the encoding/json documentation,
unmarshalling the JSON literal null into a pointer stores a nil pointer and
reports no error; any other document behaves as the underlying parser. This
gives semantics to the call on line 112, whose target is a pointer. -/
def goUnmarshalIntoPtr {Req : Type} (parse : String → Except String Req)
    (s : String) : Except String (Option Req) :=
  if s = "null" then .ok none else (parse s).map some

/-- Concrete demonstration frame used to instantiate the session theorems. -/
def reqDemo : skillRequest :=
  { version := "1.0", type := "req", requestId := "abc",
    requestPayload := "\x7b\x7d" }

/-- Concrete frame whose inner payload is the JSON literal null. -/
def reqNull : skillRequest :=
  { version := "1.0", type := "req", requestId := "abc",
    requestPayload := "null" }

/-- Collaborators for which decode, handler and marshal all succeed. -/
def okEnv : FrameEnv Unit Unit :=
  { unmarshalPayload := fun _ => .ok none,
    handler := fun _ => .ok (),
    marshal := fun _ => .ok "\x7b\x7d" }

/-- Response produced by okEnv on reqDemo. -/
def respDemo : skillResponse :=
  { version := "1.0", type := .success, originalRequestId := "abc",
    responsePayload := "\x7b\x7d" }

/-- Collaborators whose handler fails. -/
def failHandlerEnv : FrameEnv Unit Unit :=
  { unmarshalPayload := fun _ => .ok none,
    handler := fun _ => .error "boom",
    marshal := fun _ => .ok "\x7b\x7d" }

/-- Collaborators whose inner-payload decode fails. -/
def badDecodeEnv : FrameEnv Unit Unit :=
  { unmarshalPayload := fun _ => .error "bad payload",
    handler := fun _ => .ok (),
    marshal := fun _ => .ok "\x7b\x7d" }

/-- Parser used to instantiate the null-payload theorem: rejects every
non-null document. -/
def unitParse : String → Except String Unit := fun s => .error s

/-- Script entry whose handler fails. -/
def inpFailHandler : LoopInput Unit Unit :=
  { readResult := .ok reqDemo, frameEnv := failHandlerEnv,
    writeResult := .ok () }

/-- Script entry whose inner-payload decode fails. -/
def inpBadDecode : LoopInput Unit Unit :=
  { readResult := .ok reqDemo, frameEnv := badDecodeEnv,
    writeResult := .ok () }

/-- Script entry whose transport read fails. -/
def inpReadFail : LoopInput Unit Unit :=
  { readResult := .error "read failed", frameEnv := okEnv,
    writeResult := .ok () }

/-- Script entry whose transport write fails. -/
def inpWriteFail : LoopInput Unit Unit :=
  { readResult := .ok reqDemo, frameEnv := okEnv,
    writeResult := .error "write failed" }

/-- Helper: whatever the handler and marshal outcomes, the built response
echoes the request's requestId and version. -/
theorem respondTo_fields {Req Resp : Type} (env : FrameEnv Req Resp)
    (req : skillRequest) (d : Option Req) :
    (respondTo env req d).originalRequestId = req.requestId ∧
    (respondTo env req d).version = req.version := by
  simp only [respondTo]
  constructor <;> (split <;> (try split) <;> rfl)

/-- Helper: a successful inner decode makes processFrame return the built
response. -/
theorem processFrame_ok {Req Resp : Type} (env : FrameEnv Req Resp)
    (req : skillRequest) (d : Option Req)
    (hd : env.unmarshalPayload req.requestPayload = .ok d) :
    processFrame env req = .ok (respondTo env req d) := by
  unfold processFrame
  rw [hd]

/-- Claim C7: the region resolver is a pure lookup: the three known codes map to
their fixed, pairwise-distinct hostnames, and every other code yields the
empty string rather than failing. -/
theorem regionEndpoints_lookup :
    (regionEndpoints "NA" = "bob-dispatch-prod-na.amazon.com" ∧
     regionEndpoints "FE" = "bob-dispatch-prod-fe.amazon.com" ∧
     regionEndpoints "EU" = "bob-dispatch-prod-eu.amazon.com") ∧
    (regionEndpoints "NA" ≠ regionEndpoints "FE" ∧
     regionEndpoints "NA" ≠ regionEndpoints "EU" ∧
     regionEndpoints "FE" ≠ regionEndpoints "EU") ∧
    ∀ code : String, code ≠ "NA" → code ≠ "FE" → code ≠ "EU" →
      regionEndpoints code = "" := by
  refine ⟨⟨rfl, rfl, rfl⟩, ⟨by decide, by decide, by decide⟩, ?_⟩
  intro code hNA hFE hEU
  simp [regionEndpoints, hNA, hFE, hEU]

/-- Witness for C7: resolving the unknown code zz yields the empty string. -/
theorem regionEndpoints_lookup_witness : regionEndpoints "zz" = "" :=
  regionEndpoints_lookup.2.2 "zz" (by decide) (by decide) (by decide)

/-- Claim C8: for every region code and skill id, the debug relay URL is exactly
the wss scheme, the resolved region hostname, and the fixed development-stage
path around the skill id. -/
theorem debugEndpointURL_shape :
    ∀ region skillId : String,
      debugEndpointURL region skillId =
        "wss://" ++ regionEndpoints region ++ "/v1/skills/" ++ skillId ++
          "/stages/development/connectCustomDebugEndpoint" := by
  intro region skillId
  rfl

/-- Claim C1: every inbound frame that reaches response building (its inner
payload decoded successfully) yields a response whose originalRequestId
equals the frame's requestId and whose version equals the frame's version,
whether the outcome is Success or Failure. -/
theorem response_echoes_correlation_and_version {Req Resp : Type}
    (env : FrameEnv Req Resp) (req : skillRequest) (resp : skillResponse)
    (h : processFrame env req = .ok resp) :
    resp.originalRequestId = req.requestId ∧ resp.version = req.version := by
  cases hu : env.unmarshalPayload req.requestPayload with
  | error e => simp [processFrame, hu] at h
  | ok d =>
    rw [processFrame_ok env req d hu] at h
    injection h with h
    subst h
    exact respondTo_fields env req d

/-- Witness for C1 at a concrete frame and concrete collaborators. -/
theorem response_echoes_correlation_and_version_witness :
    respDemo.originalRequestId = reqDemo.requestId ∧
    respDemo.version = reqDemo.version :=
  response_echoes_correlation_and_version okEnv reqDemo respDemo rfl

/-- Claim C2: for a decoded inbound frame, a handler error or a failure to
serialize the handler result produces a Failure-outcome frame with empty
inner payload, and (the write succeeding) the session writes it and
continues with the next read rather than terminating. -/
theorem handler_or_marshal_failure_downgraded {Req Resp : Type}
    (inp : LoopInput Req Resp) (rest : List (LoopInput Req Resp))
    (req : skillRequest) (d : Option Req)
    (hr : inp.readResult = .ok req)
    (hd : inp.frameEnv.unmarshalPayload req.requestPayload = .ok d)
    (hf : (∃ e, inp.frameEnv.handler d = .error e) ∨
          (∃ r e, inp.frameEnv.handler d = .ok r ∧
            inp.frameEnv.marshal r = .error e))
    (hw : inp.writeResult = .ok ()) :
    processFrame inp.frameEnv req =
      .ok { version := req.version, type := .failure,
            originalRequestId := req.requestId, responsePayload := "" } ∧
    debugLoop (inp :: rest) =
      .readFrame req ::
        .wroteResponse { version := req.version, type := .failure,
                         originalRequestId := req.requestId,
                         responsePayload := "" } ::
        debugLoop rest := by
  have hresp : respondTo inp.frameEnv req d =
      { version := req.version, type := .failure,
        originalRequestId := req.requestId, responsePayload := "" } := by
    rcases hf with ⟨e, he⟩ | ⟨r, e, hok, hm⟩
    · simp [respondTo, he]
    · simp [respondTo, hok, hm]
  have hp := processFrame_ok inp.frameEnv req d hd
  rw [hresp] at hp
  exact ⟨hp, by simp [debugLoop, hr, hp, hw]⟩

/-- Witness for C2: a concrete frame whose handler fails yields the Failure
frame with empty payload and the session proceeds past it. -/
theorem handler_or_marshal_failure_downgraded_witness :
    processFrame inpFailHandler.frameEnv reqDemo =
      .ok { version := reqDemo.version, type := .failure,
            originalRequestId := reqDemo.requestId, responsePayload := "" } ∧
    debugLoop [inpFailHandler] =
      .readFrame reqDemo ::
        .wroteResponse { version := reqDemo.version, type := .failure,
                         originalRequestId := reqDemo.requestId,
                         responsePayload := "" } ::
        debugLoop ([] : List (LoopInput Unit Unit)) :=
  handler_or_marshal_failure_downgraded inpFailHandler [] reqDemo none
    rfl rfl (Or.inl ⟨"boom", rfl⟩) rfl

/-- Claim C3: for a decoded inbound frame, handler success plus clean
serialization yields a Success-outcome frame whose inner payload is the
serialized result, and the outcome is Failure exactly when the handler
errored or serialization of its result failed. -/
theorem success_frame_iff {Req Resp : Type}
    (env : FrameEnv Req Resp) (req : skillRequest) (d : Option Req)
    (resp : skillResponse)
    (hd : env.unmarshalPayload req.requestPayload = .ok d)
    (hp : processFrame env req = .ok resp) :
    (∀ r s, env.handler d = .ok r → env.marshal r = .ok s →
      resp = { version := req.version, type := .success,
               originalRequestId := req.requestId, responsePayload := s }) ∧
    (resp.type = .failure ↔
      (∃ e, env.handler d = .error e) ∨
      (∃ r e, env.handler d = .ok r ∧ env.marshal r = .error e)) := by
  rw [processFrame_ok env req d hd] at hp
  injection hp with hp
  subst hp
  constructor
  · intro r s hok hm
    simp [respondTo, hok, hm]
  · cases hh : env.handler d with
    | error e => simp [respondTo, hh]
    | ok r =>
      cases hm : env.marshal r with
      | error e => simp [respondTo, hh, hm]
      | ok s => simp [respondTo, hh, hm]

/-- Witness for C3 at a concrete frame whose handler and marshal succeed. -/
theorem success_frame_iff_witness :
    (∀ r s, okEnv.handler none = .ok r → okEnv.marshal r = .ok s →
      respDemo = { version := reqDemo.version, type := .success,
                   originalRequestId := reqDemo.requestId,
                   responsePayload := s }) ∧
    (respDemo.type = .failure ↔
      (∃ e, okEnv.handler none = .error e) ∨
      (∃ r e, okEnv.handler none = .ok r ∧ okEnv.marshal r = .error e)) :=
  success_frame_iff okEnv reqDemo none respDemo rfl rfl

/-- Counterexample to C4 as stated: on a concrete frame whose inner payload
fails to decode, the session does not degrade to an in-band Failure frame —
it emits a fatal exit, and the trace holds no written response at all. -/
theorem inner_decode_failure_fatal_cex :
    debugLoop [inpBadDecode] =
      [.readFrame reqDemo, .fatalExit .innerDecodeFailure] := by
  rfl

/-- Claim C4 (amended): a decode failure of the inner domain payload is
escalated to session-fatal — the session terminates at that frame with a
fatal exit, writing no response and processing nothing further — rather than
being downgraded to an in-band Failure response. -/
theorem inner_decode_failure_is_fatal {Req Resp : Type}
    (inp : LoopInput Req Resp) (rest : List (LoopInput Req Resp))
    (req : skillRequest) (e : String)
    (hr : inp.readResult = .ok req)
    (hd : inp.frameEnv.unmarshalPayload req.requestPayload = .error e) :
    debugLoop (inp :: rest) =
      [.readFrame req, .fatalExit .innerDecodeFailure] := by
  have hp : processFrame inp.frameEnv req = .error e := by
    unfold processFrame
    rw [hd]
  simp [debugLoop, hr, hp]

/-- Witness for amended C4 at the concrete failing-decode script. -/
theorem inner_decode_failure_is_fatal_witness :
    debugLoop [inpBadDecode] =
      [.readFrame reqDemo, .fatalExit .innerDecodeFailure] ∧
    debugLoop ([inpBadDecode, inpFailHandler]) =
      [.readFrame reqDemo, .fatalExit .innerDecodeFailure] :=
  ⟨inner_decode_failure_is_fatal inpBadDecode [] reqDemo "bad payload" rfl rfl,
   inner_decode_failure_is_fatal inpBadDecode [inpFailHandler] reqDemo
     "bad payload" rfl rfl⟩

/-- Counterexample to C5 as stated: on the exit path taken after a concrete
read failure the routine closes nothing — the trace is the bare fatal exit
and contains no close event, so the handle is not closed (once or at all)
before the routine ends. -/
theorem close_skipped_on_fatal_cex :
    debugLoop [inpReadFail] = [.fatalExit .readFailure] ∧
    SessionEvent.closedTransport ∉ debugLoop [inpReadFail] := by
  constructor
  · rfl
  · intro h
    simp [debugLoop, inpReadFail] at h

/-- Claim C5 (amended): the session routine never closes the transport handle
itself — every exit of its loop is a process-terminating fatal log, which
skips the deferred close, so no session trace contains a close event — and
after a read failure the session exits at once, processing no further
frames. -/
theorem close_never_runs_and_read_failure_stops {Req Resp : Type} :
    (∀ script : List (LoopInput Req Resp),
      SessionEvent.closedTransport ∉ debugLoop script) ∧
    (∀ (inp : LoopInput Req Resp) (rest : List (LoopInput Req Resp)) e,
      inp.readResult = .error e →
      debugLoop (inp :: rest) = [.fatalExit .readFailure]) := by
  constructor
  · intro script
    induction script with
    | nil => simp [debugLoop]
    | cons inp rest ih =>
      unfold debugLoop
      cases hr : inp.readResult with
      | error e => simp
      | ok req =>
        cases hp : processFrame inp.frameEnv req with
        | error e => simp [hp]
        | ok resp =>
          cases hw : inp.writeResult with
          | error e => simp [hp, hw]
          | ok u => simp [hp, hw, ih]
  · intro inp rest e hr
    simp [debugLoop, hr]

/-- Witness for amended C5: no close event on a concrete completed script,
and the concrete read failure ends the session immediately. -/
theorem close_never_runs_witness :
    SessionEvent.closedTransport ∉ debugLoop [inpFailHandler] ∧
    debugLoop [inpReadFail, inpFailHandler] = [.fatalExit .readFailure] :=
  ⟨(@close_never_runs_and_read_failure_stops Unit Unit).1 [inpFailHandler],
   (@close_never_runs_and_read_failure_stops Unit Unit).2 inpReadFail
     [inpFailHandler] "read failed" rfl⟩

/-- Claim C6: a transport read failure and a transport write failure each
terminate the session fatally: the trace stops at the fatal exit, and no
frame from the remainder of the script is read or processed. -/
theorem transport_failures_fatal {Req Resp : Type}
    (inp : LoopInput Req Resp) (rest : List (LoopInput Req Resp)) :
    (∀ e, inp.readResult = .error e →
      debugLoop (inp :: rest) = [.fatalExit .readFailure]) ∧
    (∀ req resp e, inp.readResult = .ok req →
      processFrame inp.frameEnv req = .ok resp →
      inp.writeResult = .error e →
      debugLoop (inp :: rest) = [.readFrame req, .fatalExit .writeFailure]) := by
  constructor
  · intro e hr
    simp [debugLoop, hr]
  · intro req resp e hr hp hw
    simp [debugLoop, hr, hp, hw]

/-- Witness for C6: concrete read-failure and write-failure scripts, each
with a further script entry that is never processed. -/
theorem transport_failures_fatal_witness :
    debugLoop [inpReadFail, inpFailHandler] = [.fatalExit .readFailure] ∧
    debugLoop [inpWriteFail, inpFailHandler] =
      [.readFrame reqDemo, .fatalExit .writeFailure] :=
  ⟨(transport_failures_fatal inpReadFail [inpFailHandler]).1
      "read failed" rfl,
   (transport_failures_fatal inpWriteFail [inpFailHandler]).2
      reqDemo respDemo "write failed" rfl rfl rfl⟩

/-- Claim C9: processing never inspects the inbound frame's type field: two
inbound frames identical except for type produce identical pipeline results,
hence identical outbound response frames. -/
theorem response_independent_of_inbound_type {Req Resp : Type}
    (env : FrameEnv Req Resp) (req : skillRequest) (t₁ t₂ : String) :
    processFrame env { req with type := t₁ } =
      processFrame env { req with type := t₂ } := rfl

/-- Claim C10: a frame whose inner payload is the JSON literal null decodes
without error — json.Unmarshal into a pointer stores nil on the literal
null — so the pipeline does not go fatal and the handler stage runs on the
nil (absent) domain request. -/
theorem null_payload_decodes_to_nil {Req Resp : Type}
    (parse : String → Except String Req)
    (handler : Option Req → Except String Resp)
    (marshal : Resp → Except String String)
    (req : skillRequest) (hnull : req.requestPayload = "null") :
    goUnmarshalIntoPtr parse req.requestPayload = .ok none ∧
    processFrame ⟨goUnmarshalIntoPtr parse, handler, marshal⟩ req =
      .ok (respondTo ⟨goUnmarshalIntoPtr parse, handler, marshal⟩ req none) := by
  have h1 : goUnmarshalIntoPtr parse req.requestPayload = .ok none := by
    rw [hnull]
    simp [goUnmarshalIntoPtr]
  exact ⟨h1, processFrame_ok _ req none h1⟩

/-- Witness for C10 at a concrete frame carrying the literal null and a
parser that rejects everything else. -/
theorem null_payload_decodes_to_nil_witness :
    goUnmarshalIntoPtr unitParse reqNull.requestPayload = .ok none ∧
    processFrame ⟨goUnmarshalIntoPtr unitParse, fun _ => .ok (),
        fun _ => .ok "\x7b\x7d"⟩ reqNull =
      .ok (respondTo ⟨goUnmarshalIntoPtr unitParse, fun _ => .ok (),
        fun _ => .ok "\x7b\x7d"⟩ reqNull none) :=
  null_payload_decodes_to_nil unitParse (fun _ => .ok ())
    (fun _ => .ok "\x7b\x7d") reqNull rfl

end AlexaDebug
